import Mathlib

/-!
Verification of the implify-catalog-api query engine.

The development shallowly embeds the JavaScript sources of the repository:
  * `api/search.js`   - search endpoint: utilities, a coarse connection-size
    deriver, the filter chain and the `limit` handling,
  * `api/facets.js` and the full facets handler (`src/unnamed/part_000`) -
    utilities, the hint-aware connection-size deriver, `applyFilters`,
    `countValues` and the facet assembly including the cleaned
    `connection_mm` facet,
  * `scripts/enrich-connections.js` - the strict deriver with platform
    defaults, 3.75-snapping and the whitelist validation.

Modelling conventions:
  * JS strings are `List Char` (`Str`); absent / `null` fields are `none`.
  * JS numbers are `ℚ`.  All numbers handled by the engine come from
    `parseFloat` / `parseInt` on short decimal strings and are re-rendered by
    `String(x)` losslessly, so `toNum (String(x)) = x` is baked in where the
    code round-trips a number through `approxEq`.
  * Rounding (`Math.round`, `toFixed(1)`) is modelled as exact half-up
    rounding on ℚ; the concrete inputs used below are far from ties, where
    IEEE doubles and ℚ agree.
  * Regexes are implemented as explicit scanners with the same leftmost,
    non-overlapping, backtracking semantics as the JS patterns used
    (`/(\d+[.,]\d+|\d+)\s*mm/gi`, `/\(([^)]+)\)/g`, the word-boundary
    keyword tests).  Scanners take `s.length` as structural fuel, which is
    an upper bound on the number of scanning steps.
  * `Char.toLower`/`Char.toUpper` are ASCII case maps; every string constant
    in the engine is ASCII, where this agrees with JS `toLowerCase`.
-/

set_option maxRecDepth 4000

unseal Rat.add Rat.sub Rat.mul Rat.inv Nat.gcd Rat.ofScientific

namespace Implify

abbrev Str := List Char

def str (s : String) : Str := s.toList

/-- JS `\s` for the ASCII range (space, tab, newline, cr, vtab, formfeed). -/
def isWsJS (c : Char) : Bool :=
  c = ' ' || c = '\t' || c = '\n' || c = '\r' || c = '\x0b' || c = '\x0c'

/-- JS regex word character `[A-Za-z0-9_]`. -/
def isWordChar (c : Char) : Bool := c.isAlphanum || c = '_'

/-- `String.prototype.trim`. -/
def jsTrim (s : Str) : Str :=
  ((s.dropWhile isWsJS).reverse.dropWhile isWsJS).reverse

def jsLower (s : Str) : Str := s.map Char.toLower

def jsUpper (s : Str) : Str := s.map Char.toUpper

/-- `norm(v)` from the sources: `(v ?? "").toString().trim()`. -/
def norm (v : Option Str) : Str := jsTrim (v.getD [])

/-- `lower(v)` from the sources: `norm(v).toLowerCase()`. -/
def lower (v : Option Str) : Str := jsLower (norm v)

/-- JS truthiness of a nullable string (null, undefined and "" are falsy). -/
def truthyO (o : Option Str) : Bool :=
  match o with
  | some s => !s.isEmpty
  | none => false

/-- JS truthiness of a nullable number (null and 0 are falsy; NaN is `none`). -/
def truthyNum (o : Option ℚ) : Bool :=
  match o with
  | some q => decide (q ≠ 0)
  | none => false

/-- `a ?? b` / first-non-null choice used when merging query subsets. -/
def oMerge (a b : Option Str) : Option Str :=
  match a with
  | some s => some s
  | none => b

/-- JS `a || b` on nullable strings: `a` when truthy, otherwise `b`. -/
def orTruthy (a b : Option Str) : Option Str :=
  if truthyO a then a else b

/-- `String.prototype.replace(',', '.')`: only the first comma is replaced. -/
def replaceFirstComma : Str → Str
  | [] => []
  | c :: rest => if c = ',' then '.' :: rest else c :: replaceFirstComma rest

/-- `replace(/[^\d.]/g, '')`. -/
def keepDigitsDots (s : Str) : Str :=
  s.filter (fun c => c.isDigit || c = '.')

def digitsVal (ds : Str) : ℕ :=
  ds.foldl (fun a c => 10 * a + (c.toNat - 48)) 0

def fracVal (ds : Str) : ℚ :=
  (digitsVal ds : ℚ) / 10 ^ ds.length

/-- JS `parseFloat` restricted to the sign-free case: parse the longest
`\d*\.?\d*` prefix holding at least one digit; `none` models NaN. -/
def parseFloatCore (s : Str) : Option ℚ :=
  let d1 := s.takeWhile Char.isDigit
  match s.drop d1.length with
  | '.' :: r2 =>
    let d2 := r2.takeWhile Char.isDigit
    if d1.isEmpty && d2.isEmpty then none
    else some ((digitsVal d1 : ℚ) + fracVal d2)
  | _ => if d1.isEmpty then none else some (digitsVal d1)

/-- `toNum(x)` shared by all three sources: `null` stays `null`, else
`parseFloat(String(x).replace(',', '.').replace(/[^\d.]/g, ''))`,
with NaN mapped back to `null`. -/
def toNum (x : Option Str) : Option ℚ :=
  match x with
  | none => none
  | some s => parseFloatCore (keepDigitsDots (replaceFirstComma s))

/-- Full JS `parseFloat` on a raw string (used on the raw gingiva hint in the
facets handler): optional leading whitespace and sign, then a decimal
prefix. -/
def parseFloatJS (s : Str) : Option ℚ :=
  match s.dropWhile isWsJS with
  | '-' :: r => (parseFloatCore r).map (fun q => -q)
  | '+' :: r => parseFloatCore r
  | t => parseFloatCore t

def digitsPre (s : Str) : Option ℕ :=
  let d := s.takeWhile Char.isDigit
  if d.isEmpty then none else some (digitsVal d)

/-- JS `parseInt(s, 10)`: leading whitespace, optional sign, digit prefix. -/
def parseIntJS (s : Str) : Option ℤ :=
  match s.dropWhile isWsJS with
  | '-' :: r => (digitsPre r).map (fun n => -(n : ℤ))
  | '+' :: r => (digitsPre r).map (fun n => (n : ℤ))
  | t => (digitsPre t).map (fun n => (n : ℤ))

/-- `approxEq(a,b)` on raw (string) inputs: both must normalise to numbers
and differ by less than 0.11. -/
def approxEq (a b : Option Str) : Bool :=
  match toNum a, toNum b with
  | some na, some nb => decide (|na - nb| < 11/100)
  | _, _ => false

/-- `approxEq(v, d)` where both sides are already numbers (JS stringifies and
re-parses them losslessly). -/
def approxEqN (v : ℚ) (d : Option ℚ) : Bool :=
  match d with
  | some w => decide (|v - w| < 11/100)
  | none => false

/-- `approxEq(conn, s)` with a derived number on the left and a raw query
string on the right. -/
def approxEqNum (a : Option ℚ) (b : Option Str) : Bool :=
  match a, toNum b with
  | some x, some y => decide (|x - y| < 11/100)
  | _, _ => false

def digitChar (n : ℕ) : Char := Char.ofNat (48 + n)

def pad2 (n : ℕ) : Str :=
  if n < 10 then ['0', digitChar n] else [digitChar (n / 10), digitChar (n % 10)]

/-- `normPlatform(p)`: uppercase, strip all whitespace; `^P?(\d{1,2})$`
canonicalises to `P` + zero-padded number, otherwise the string passes
through (or `null` when empty). -/
def normPlatform (p : Option Str) : Option Str :=
  let s := (jsUpper (norm p)).filter (fun c => !isWsJS c)
  let ds := match s with
    | 'P' :: rest => rest
    | _ => s
  if !ds.isEmpty && decide (ds.length ≤ 2) && ds.all Char.isDigit then
    some ('P' :: pad2 (digitsVal ds))
  else if s.isEmpty then none else some s

/-- `pat` occurs as a contiguous substring of `s` (JS `String.includes`). -/
def containsSub (pat : Str) : Str → Bool
  | [] => pat.isEmpty
  | s@(_ :: rest) => pat.isPrefixOf s || containsSub pat rest

def startOk (prev : Option Char) : Bool :=
  match prev with
  | none => true
  | some c => !isWordChar c

def endOk (s : Str) (n : ℕ) : Bool :=
  match s.drop n with
  | [] => true
  | c :: _ => !isWordChar c

/-- A word-boundary-delimited occurrence of `pat` starts exactly here. -/
def hitHere (pat s : Str) (prev : Option Char) : Bool :=
  startOk prev && pat.isPrefixOf s && endOk s pat.length

def wordHitAux (pat : Str) (prev : Option Char) : Str → Bool
  | [] => pat.isEmpty && startOk prev
  | s@(c :: rest) => hitHere pat s prev || wordHitAux pat (some c) rest

/-- `/\b pat \b/.test(s)` for a literal pattern that starts and ends with a
word character. -/
def wordHit (pat s : Str) : Bool := wordHitAux pat none s

def wordAny (pats : List Str) (s : Str) : Bool :=
  pats.any (fun p => wordHit p s)

/-- `parseRotation(val)`: `"with"`, `"without"` or `""` (no opinion).
`r-?schutz` is expanded to its two concrete alternatives. -/
def parseRotation (val : Option Str) : Str :=
  let s := lower val
  if s.isEmpty then []
  else if wordAny [str "with", str "mit", str "ja", str "yes", str "rotation",
      str "rschutz", str "r-schutz"] s then str "with"
  else if wordAny [str "without", str "ohne", str "nein", str "no"] s then
    str "without"
  else []

/-- One catalog record (the JSONL fields the engine reads); every field is a
nullable string, mirroring the raw JSON values after `String(·)`. -/
structure Rec where
  sku : Option Str := none
  mfg_code : Option Str := none
  name_de : Option Str := none
  name_long_de : Option Str := none
  Artikel_Name : Option Str := none
  Artikel_Name_long : Option Str := none
  platform : Option Str := none
  group : Option Str := none
  product_group : Option Str := none
  diameter_mm : Option Str := none
  diameter_text : Option Str := none
  length_mm : Option Str := none
  gingiva_mm : Option Str := none
  angulation_deg : Option Str := none
  connection_mm : Option Str := none
  Platfform_Prothetikdurchmesser : Option Str := none
  plattform_prothetikdurchmesser : Option Str := none
  platform_prothetikdurchmesser : Option Str := none
  abformung : Option Str := none
  color : Option Str := none
  ausfuehrung : Option Str := none
  rotationsschutz : Option Str := none
  zubehoer : Option Str := none
deriving DecidableEq

/-- One query-string environment: `p.get(k)` is the corresponding field
(`none` = parameter absent). -/
structure Query where
  q : Option Str := none
  platform : Option Str := none
  group : Option Str := none
  product_group : Option Str := none
  diameter_mm : Option Str := none
  length_mm : Option Str := none
  gingiva_mm : Option Str := none
  angulation_deg : Option Str := none
  connection_mm : Option Str := none
  prothetik_diameter_mm : Option Str := none
  abformung : Option Str := none
  color : Option Str := none
  rotationsschutz : Option Str := none
  variant : Option Str := none
  limit : Option Str := none
deriving DecidableEq

/-! ### Text scanners (shared by all derivers) -/

/-- After the numeric part of a `mm` match: `\s*` then `m`/`M` twice.
Returns the length consumed, or `none` if the tail does not match. -/
def mmTailLen (s : Str) : Option ℕ :=
  let w := s.takeWhile isWsJS
  match s.drop w.length with
  | a :: b :: _ =>
    if (a = 'm' || a = 'M') && (b = 'm' || b = 'M') then some (w.length + 2)
    else none
  | _ => none

/-- Try to match `(\d+[.,]\d+|\d+)\s*mm` (case-insensitive) at the start of
`s`; returns the parsed value of the whole match under `toNum` and the total
match length.  Greedy digit runs make the regex backtracking deterministic:
if the fractional alternative's `mm` tail fails, the integer alternative
fails as well, because the character after the digit run is the separator. -/
def mmMatchAt (s : Str) : Option (ℚ × ℕ) :=
  let d1 := s.takeWhile Char.isDigit
  if d1.isEmpty then none else
  let r1 := s.drop d1.length
  let alt1 : Option (ℚ × ℕ) :=
    match r1 with
    | c :: r2 =>
      if c = '.' || c = ',' then
        let d2 := r2.takeWhile Char.isDigit
        if d2.isEmpty then none
        else
          match mmTailLen (r2.drop d2.length) with
          | some t =>
            some ((digitsVal d1 : ℚ) + fracVal d2, d1.length + 1 + d2.length + t)
          | none => none
      else none
    | [] => none
  match alt1 with
  | some res => some res
  | none =>
    match mmTailLen r1 with
    | some t => some ((digitsVal d1 : ℚ), d1.length + t)
    | none => none

/-- Global scan collecting all `toNum`-values of `(\d+[.,]\d+|\d+)\s*mm`
matches, leftmost and non-overlapping; on failure the start position
advances by one character.  `fuel` bounds the number of steps and is
instantiated with the string length, which each step strictly decreases. -/
def scanMMAux : ℕ → Str → List ℚ
  | 0, _ => []
  | _ + 1, [] => []
  | fuel + 1, s@(_ :: rest) =>
    match mmMatchAt s with
    | some (q, len) => q :: scanMMAux fuel (s.drop len)
    | none => scanMMAux fuel rest

def scanMM (s : Str) : List ℚ := scanMMAux s.length s

/-- `Array.from(name.matchAll(/\(([^)]+)\)/g)).map(m => m[1])`: all
non-empty parenthesised segments, leftmost and non-overlapping; an
unmatched `(` makes the scan resume one character later. -/
def extractParensAux : ℕ → Str → List Str
  | 0, _ => []
  | _ + 1, [] => []
  | fuel + 1, c :: rest =>
    if c = '(' then
      let seg := rest.takeWhile (fun d => d ≠ ')')
      match rest.drop seg.length with
      | ')' :: rem =>
        if seg.isEmpty then extractParensAux fuel rest
        else seg :: extractParensAux fuel rem
      | _ => extractParensAux fuel rest
    else extractParensAux fuel rest

def extractParens (s : Str) : List Str := extractParensAux s.length s

def joinSep (sep : Str) : List Str → Str
  | [] => []
  | [x] => x
  | x :: xs => x ++ sep ++ joinSep sep xs

/-- The concatenated name text used by every deriver:
`[name_de, name_long_de, Artikel_Name, Artikel_Name_long].map(norm).filter(Boolean).join(" | ")`. -/
def nameText (r : Rec) : Str :=
  joinSep (str " | ")
    (([r.name_de, r.name_long_de, r.Artikel_Name, r.Artikel_Name_long].map norm).filter
      (fun s => !s.isEmpty))

def dropPre (pat s : Str) : Option Str :=
  if pat.isPrefixOf s then some (s.drop pat.length) else none

/-- `ext\s*hex` occurs somewhere in the (already lowered) string. -/
def extHexHit : Str → Bool
  | [] => false
  | s@(_ :: rest) =>
    (match dropPre (str "ext") s with
     | some r => (str "hex").isPrefixOf (r.dropWhile isWsJS)
     | none => false) || extHexHit rest

/-- The interface-keyword test
`/(ext\s*hex|certain|internal|external|eztetic|tsx|platform|hex)/i`
(`withConnection` adds the extra `connection` alternative used by the
enrichment script). -/
def kwTest (withConnection : Bool) (seg : Str) : Bool :=
  let l := jsLower seg
  extHexHit l || containsSub (str "certain") l || containsSub (str "internal") l ||
    containsSub (str "external") l || containsSub (str "eztetic") l ||
    containsSub (str "tsx") l || containsSub (str "platform") l ||
    containsSub (str "hex") l ||
    (withConnection && containsSub (str "connection") l)

/-! ### Derivers -/

/-- The explicit connection field probed by the search/facets derivers:
`toNum(r.Platfform_Prothetikdurchmesser || r.plattform_prothetikdurchmesser
|| r.platform_prothetikdurchmesser)`. -/
def explicitCand (r : Rec) : Option ℚ :=
  toNum (orTruthy r.Platfform_Prothetikdurchmesser
    (orTruthy r.plattform_prothetikdurchmesser r.platform_prothetikdurchmesser))

namespace Facets

/-- `getPartDiameter` of `facets.js` / `part_000` (the variant that also
rejects an empty-string `diameter_mm`). -/
def getPartDiameter (r : Rec) : Option ℚ :=
  match r.diameter_mm with
  | some s =>
    if !s.isEmpty then toNum (some s)
    else if truthyO r.diameter_text then toNum r.diameter_text else none
  | none => if truthyO r.diameter_text then toNum r.diameter_text else none

/-- Candidate pool of `part_000`'s `deriveConnectionMM`: keyword-bearing
parenthesised segments first, the whole name as fallback. -/
def mmCandidates (r : Rec) : List ℚ :=
  let name := nameText r
  let parens := extractParens name
  let pools := if parens.isEmpty then [name] else parens
  let mmK := ((pools.filter (kwTest false)).map scanMM).flatten
  if mmK.isEmpty then scanMM name else mmK

/-- The candidate filter of `part_000` (line 79-83): not ≈ the part
diameter, not ≈ the parsed hint, inside [3.0, 6.5]. -/
def candFilter (r : Rec) (hintGingiva : Option Str) (v : ℚ) : Bool :=
  (match getPartDiameter r with
   | none => true
   | some d => !decide (|v - d| < 11/100)) &&
  (match toNum hintGingiva with
   | none => true
   | some g => !decide (|v - g| < 11/100)) &&
  decide (3 ≤ v) && decide (v ≤ 13/2)

def filteredCands (r : Rec) (hintGingiva : Option Str) : List ℚ :=
  (mmCandidates r).filter (candFilter r hintGingiva)

/-- `deriveConnectionMM(r, hintGingiva)` of `api/facets.js` (second revision)
and `src/unnamed/part_000`. -/
def deriveConnectionMM (r : Rec) (hintGingiva : Option Str) : Option ℚ :=
  let cand := explicitCand r
  if truthyNum cand then cand
  else
    match filteredCands r hintGingiva with
    | v :: _ => some v
    | [] =>
      if !truthyNum (getPartDiameter r) && decide ((mmCandidates r).length = 1) then
        (mmCandidates r).head?
      else none

end Facets

namespace Search

/-- `getPartDiameter` of `api/search.js` (no empty-string check on
`diameter_mm`). -/
def getPartDiameter (r : Rec) : Option ℚ :=
  match r.diameter_mm with
  | some s => toNum (some s)
  | none => if truthyO r.diameter_text then toNum r.diameter_text else none

/-- `deriveConnectionMM(r)` of `api/search.js` (lines 59-83): whole-name mm
scan, drop candidates ≈ part diameter, then the cascade of fallbacks. -/
def deriveConnectionMM (r : Rec) : Option ℚ :=
  let cand := explicitCand r
  if truthyNum cand then cand
  else
    let mm := scanMM (nameText r)
    let partDia := getPartDiameter r
    let list := mm.filter (fun v => !approxEqN v partDia)
    if decide (list.length = 1) then list.head?
    else if !truthyNum partDia && decide (mm.length = 1) then mm.head?
    else if decide (1 < list.length) then list.head?
    else if decide (mm.length = 1) then mm.head?
    else none

end Search

/-- `Math.round(v*10)/10` (half-up rounding for the non-negative values the
derivers produce). -/
def roundTo1 (v : ℚ) : ℚ := ((⌊10 * v + 1/2⌋ : ℤ) : ℚ) / 10

/-- `normConn(v)` of the enrichment script and the facets handler: snap to
3.75 inside a 0.06 window, otherwise round to one decimal. -/
def normConn (v : ℚ) : ℚ :=
  if |v - 15/4| < 3/50 then 15/4 else roundTo1 v

/-- The whitelist of real connector sizes.  The source keeps the strings
{"3.3",...,"5.7"} and tests `allow.has(vv.toFixed(2)) ||
allow.has(vv.toFixed(1))`; on `normConn`'s outputs (3.75 or a one-decimal
value) that string test is exactly membership of this rational set. -/
def allowQ : List ℚ := [3.3, 3.4, 3.5, 3.75, 4.1, 4.5, 4.8, 5.0, 5.5, 5.7]

namespace Enrich

/-- Enrichment-script candidate pool (keyword list includes `connection`). -/
def mmCandidates (r : Rec) : List ℚ :=
  let name := nameText r
  let parens := extractParens name
  let pools := if parens.isEmpty then [name] else parens
  let mmK := ((pools.filter (kwTest true)).map scanMM).flatten
  if mmK.isEmpty then scanMM name else mmK

/-- Enrichment-script candidate filter (no hint): not ≈ the part diameter,
inside [3.0, 6.5]. -/
def candFilter (r : Rec) (v : ℚ) : Bool :=
  (match Facets.getPartDiameter r with
   | none => true
   | some d => !decide (|v - d| < 11/100)) &&
  decide (3 ≤ v) && decide (v ≤ 13/2)

def filteredCands (r : Rec) : List ℚ :=
  (mmCandidates r).filter (candFilter r)

/-- The whitelist loop: first filtered candidate whose snapped value is an
allowed connector size. -/
def firstAllowed : List ℚ → Option ℚ
  | [] => none
  | v :: rest =>
    let vv := normConn v
    if vv ∈ allowQ then some vv else firstAllowed rest

/-- `deriveConnectionMM(r)` of `scripts/enrich-connections.js`: explicit
`connection_mm` field, then the `P06`/`P07` platform defaults, then the
keyword-scoped text extraction with snapping and whitelist validation. -/
def deriveConnectionMM (r : Rec) : Option ℚ :=
  match r.connection_mm with
  | some s =>
    if !s.isEmpty then toNum (some s)
    else
      let plat := jsUpper (norm r.platform)
      if plat = str "P06" then some (41/10)
      else if plat = str "P07" then some 5
      else firstAllowed (filteredCands r)
  | none =>
    let plat := jsUpper (norm r.platform)
    if plat = str "P06" then some (41/10)
    else if plat = str "P07" then some 5
    else firstAllowed (filteredCands r)

end Enrich

/-! ### Filter engine -/

/-- The search haystack:
`` `${r.sku||""} ${r.mfg_code||""} ${r.name_de||""} ${r.name_long_de||""}`.toLowerCase() ``. -/
def hay (r : Rec) : Str :=
  jsLower ((r.sku.getD []) ++ [' '] ++ (r.mfg_code.getD []) ++ [' '] ++
    (r.name_de.getD []) ++ [' '] ++ (r.name_long_de.getD []))

/-- The selected platform value:
`platformIn === "universal" ? "universal" : normPlatform(platformIn)`. -/
def platformSel (p : Query) : Option Str :=
  if p.platform = some (str "universal") then some (str "universal")
  else normPlatform p.platform

/-- Effective connection parameter:
`p.get("connection_mm") || p.get("prothetik_diameter_mm")`. -/
def effConn (p : Query) : Option Str :=
  orTruthy p.connection_mm p.prothetik_diameter_mm

def checkQ (p : Query) (r : Rec) : Bool :=
  let q := lower p.q
  if q.isEmpty then true else containsSub q (hay r)

def checkPlatform (p : Query) (r : Rec) : Bool :=
  match platformSel p with
  | none => true
  | some pl =>
    if pl = str "universal" then !truthyO r.platform
    else decide (jsUpper (r.platform.getD []) = pl)

def checkGroup (p : Query) (r : Rec) : Bool :=
  let g := lower p.group
  if g.isEmpty then true else decide (lower r.group = g)

def checkProdGroup (p : Query) (r : Rec) : Bool :=
  let g := lower p.product_group
  if g.isEmpty then true else decide (lower r.product_group = g)

def checkDiameter (p : Query) (r : Rec) : Bool :=
  if truthyO p.diameter_mm then approxEq r.diameter_mm p.diameter_mm else true

def checkLength (p : Query) (r : Rec) : Bool :=
  if truthyO p.length_mm then approxEq r.length_mm p.length_mm else true

def checkGingiva (p : Query) (r : Rec) : Bool :=
  if truthyO p.gingiva_mm then approxEq r.gingiva_mm p.gingiva_mm else true

def checkAngulation (p : Query) (r : Rec) : Bool :=
  if truthyO p.angulation_deg then approxEq r.angulation_deg p.angulation_deg else true

def checkAbformung (p : Query) (r : Rec) : Bool :=
  let a := lower p.abformung
  if a.isEmpty then true else decide (lower r.abformung = a)

def checkColor (p : Query) (r : Rec) : Bool :=
  let c := lower p.color
  if c.isEmpty then true else decide (lower r.color = c)

def checkRotation (p : Query) (r : Rec) : Bool :=
  let rot := parseRotation p.rotationsschutz
  if rot.isEmpty then true
  else
    let field := lower r.rotationsschutz
    let isWith := wordAny [str "mit", str "ja", str "with", str "rotation",
      str "rschutz", str "r-schutz"] field
    let isWithout := wordAny [str "ohne", str "nein", str "without"] field
    if rot = str "with" then isWith
    else if rot = str "without" then isWithout
    else true

def checkVariant (p : Query) (r : Rec) : Bool :=
  let v := lower p.variant
  if v.isEmpty then true
  else containsSub v (lower r.ausfuehrung ++ [' '] ++ lower r.rotationsschutz ++
    [' '] ++ lower r.zubehoer)

namespace Facets

/-- The connection predicate of `part_000`'s `applyFilters`:
`deriveConnectionMM(r, p.get("gingiva_mm"))` against the effective
connection parameter. -/
def checkConnection (p : Query) (r : Rec) : Bool :=
  if truthyO (effConn p) then
    approxEqNum (deriveConnectionMM r p.gingiva_mm) (effConn p)
  else true

/-- The full record predicate of `part_000`'s `applyFilters`: the early
`return false` chain is equivalent to this conjunction, in source order. -/
def passes (p : Query) (r : Rec) : Bool :=
  checkQ p r && checkPlatform p r && checkGroup p r && checkProdGroup p r &&
  checkDiameter p r && checkLength p r && checkGingiva p r && checkAngulation p r &&
  checkConnection p r && checkAbformung p r && checkColor p r &&
  checkRotation p r && checkVariant p r

/-- `applyFilters(items, p)` of `src/unnamed/part_000`. -/
def applyFilters (items : List Rec) (p : Query) : List Rec :=
  items.filter (passes p)

end Facets

namespace Search

/-- Connection predicate of the search handler (the deriver takes no hint). -/
def checkConnection (p : Query) (r : Rec) : Bool :=
  if truthyO (effConn p) then
    approxEqNum (deriveConnectionMM r) (effConn p)
  else true

/-- The record predicate of the search handler's filter (same chain as the
facets one, with the hint-free deriver). -/
def passes (p : Query) (r : Rec) : Bool :=
  checkQ p r && checkPlatform p r && checkGroup p r && checkProdGroup p r &&
  checkDiameter p r && checkLength p r && checkGingiva p r && checkAngulation p r &&
  Search.checkConnection p r && checkAbformung p r && checkColor p r &&
  checkRotation p r && checkVariant p r

def filterItems (items : List Rec) (p : Query) : List Rec :=
  items.filter (passes p)

/-- `Math.max(1, Math.min(50, parseInt(p.get("limit") || "10", 10)))`;
`none` models the NaN produced by an unparseable limit. -/
def limitOf (p : Option Str) : Option ℤ :=
  let s := match p with
    | some s => if s.isEmpty then str "10" else s
    | none => str "10"
  (parseIntJS s).map (fun n => max 1 (min 50 n))

/-- The item list of the search response (before the field reshaping, which
preserves order and length): `result.slice(0, limit)`; `slice(0, NaN)` is
the empty list. -/
def searchItems (items : List Rec) (p : Query) : List Rec :=
  let res := filterItems items p
  match limitOf p.limit with
  | some k => res.take k.toNat
  | none => []

end Search

/-! ### Facet aggregator -/

/-- One `map.set(key, (map.get(key) || 0) + 1)` step on an insertion-ordered
association list. -/
def bump {K : Type} [DecidableEq K] (m : List (K × ℕ)) (k : K) : List (K × ℕ) :=
  if m.any (fun e => e.1 = k) then
    m.map (fun e => if e.1 = k then (e.1, e.2 + 1) else e)
  else m ++ [(k, 1)]

/-- A JS `Map` used as a counter: keys in insertion order with their counts. -/
def tally {K : Type} [DecidableEq K] (vs : List K) : List (K × ℕ) :=
  vs.foldl bump []

/-- Keys of `vs` in first-occurrence order. -/
def firstKeys {K : Type} [DecidableEq K] (vs : List K) : List K :=
  vs.foldl (fun acc v => if v ∈ acc then acc else acc ++ [v]) []

/-- Stable insertion of one entry into a count-descending list (an earlier
element stays in front of later elements with the same count, matching the
stable JS `sort((a,b) => b[1]-a[1])`). -/
def insCD {K : Type} (x : K × ℕ) : List (K × ℕ) → List (K × ℕ)
  | [] => [x]
  | y :: l => if y.2 ≤ x.2 then x :: y :: l else y :: insCD x l

/-- Stable sort by descending count. -/
def sortCountDesc {K : Type} : List (K × ℕ) → List (K × ℕ)
  | [] => []
  | x :: l => insCD x (sortCountDesc l)

/-- `countValues(items, field, numeric, mapper)`: count the extracted values,
sort by descending count, keep the top 50. -/
def countValues {K : Type} [DecidableEq K] (extract : Rec → Option K)
    (items : List Rec) : List (K × ℕ) :=
  (sortCountDesc (tally (items.filterMap extract))).take 50

/-- Extractor for an enumeration facet: skip `null` and `""`, key by the raw
string. -/
def enumVal (f : Rec → Option Str) (r : Rec) : Option Str :=
  match f r with
  | some v => if v.isEmpty then none else some v
  | none => none

/-- Extractor for a numeric facet: skip `null`, `""` and non-numbers, key by
`toNum(v).toFixed(1)` (modelled as the rounded rational, which the fixed
one-decimal rendering represents injectively). -/
def numVal (f : Rec → Option Str) (r : Rec) : Option ℚ :=
  match f r with
  | some v =>
    if v.isEmpty then none
    else
      match toNum (some v) with
      | some n => some (roundTo1 n)
      | none => none
  | none => none

namespace Facets

/-- `gingivaHint && Math.abs(n - parseFloat(gingivaHint)) < 0.11`. -/
def gingivaClash (hint : Option Str) (n : ℚ) : Bool :=
  truthyO hint &&
    (match parseFloatJS (hint.getD []) with
     | some h => decide (|n - h| < 11/100)
     | none => false)

/-- One record's contribution to the connection facet of `part_000`'s
handler (lines 178-187): derive, drop out-of-range and hint-clashing
values, bucket through `normConn`. -/
def acceptConn (hint : Option Str) (r : Rec) : Option ℚ :=
  match deriveConnectionMM r hint with
  | none => none
  | some n =>
    if decide (n < 3) || decide (n > 13/2) then none
    else if gingivaClash hint n then none
    else some (normConn n)

/-- The cleaned `connection_mm` facet of `part_000`'s handler: bucket the
accepted values, drop singleton buckets when more than one distinct value
remains, sort by descending count (this facet has no top-50 truncation). -/
def connFacetH (items : List Rec) (p : Query) : List (ℚ × ℕ) :=
  let filtered := applyFilters items p
  let entries := tally (filtered.filterMap (acceptConn p.gingiva_mm))
  let pruned := if 1 < entries.length then entries.filter (fun e => 2 ≤ e.2) else entries
  sortCountDesc pruned

/-- The facet response of `part_000`'s handler, with each value list erased
to its count sequence (field order as in the source). -/
def facetsCounts (items : List Rec) (p : Query) : List (Str × List ℕ) :=
  let filtered := applyFilters items p
  [ (str "platform", (countValues (enumVal Rec.platform) filtered).map (fun e => e.2)),
    (str "platform_scope",
      [(filtered.filter (fun r => truthyO r.platform)).length,
       (filtered.filter (fun r => !truthyO r.platform)).length]),
    (str "product_group", (countValues (enumVal Rec.product_group) filtered).map (fun e => e.2)),
    (str "group", (countValues (enumVal Rec.group) filtered).map (fun e => e.2)),
    (str "diameter_mm", (countValues (numVal Rec.diameter_mm) filtered).map (fun e => e.2)),
    (str "length_mm", (countValues (numVal Rec.length_mm) filtered).map (fun e => e.2)),
    (str "gingiva_mm", (countValues (numVal Rec.gingiva_mm) filtered).map (fun e => e.2)),
    (str "angulation_deg", (countValues (numVal Rec.angulation_deg) filtered).map (fun e => e.2)),
    (str "connection_mm", (connFacetH items p).map (fun e => e.2)),
    (str "abformung", (countValues (enumVal Rec.abformung) filtered).map (fun e => e.2)),
    (str "ausfuehrung", (countValues (enumVal Rec.ausfuehrung) filtered).map (fun e => e.2)),
    (str "rotationsschutz", (countValues (enumVal Rec.rotationsschutz) filtered).map (fun e => e.2)),
    (str "color", (countValues (enumVal Rec.color) filtered).map (fun e => e.2)) ]

end Facets

/-! ### Query merging (for the filter-composition claim) -/

/-- The combined query string holding the parameters of both subsets
(assumed disjoint, so the choice order is immaterial). -/
def mergeQ (A B : Query) : Query where
  q := oMerge A.q B.q
  platform := oMerge A.platform B.platform
  group := oMerge A.group B.group
  product_group := oMerge A.product_group B.product_group
  diameter_mm := oMerge A.diameter_mm B.diameter_mm
  length_mm := oMerge A.length_mm B.length_mm
  gingiva_mm := oMerge A.gingiva_mm B.gingiva_mm
  angulation_deg := oMerge A.angulation_deg B.angulation_deg
  connection_mm := oMerge A.connection_mm B.connection_mm
  prothetik_diameter_mm := oMerge A.prothetik_diameter_mm B.prothetik_diameter_mm
  abformung := oMerge A.abformung B.abformung
  color := oMerge A.color B.color
  rotationsschutz := oMerge A.rotationsschutz B.rotationsschutz
  variant := oMerge A.variant B.variant
  limit := oMerge A.limit B.limit

/-- The two subsets carry disjoint filter parameters (each query-string key
appears in at most one of them). -/
def DisjointQ (A B : Query) : Prop :=
  (A.q = none ∨ B.q = none) ∧
  (A.platform = none ∨ B.platform = none) ∧
  (A.group = none ∨ B.group = none) ∧
  (A.product_group = none ∨ B.product_group = none) ∧
  (A.diameter_mm = none ∨ B.diameter_mm = none) ∧
  (A.length_mm = none ∨ B.length_mm = none) ∧
  (A.gingiva_mm = none ∨ B.gingiva_mm = none) ∧
  (A.angulation_deg = none ∨ B.angulation_deg = none) ∧
  (A.connection_mm = none ∨ B.connection_mm = none) ∧
  (A.prothetik_diameter_mm = none ∨ B.prothetik_diameter_mm = none) ∧
  (A.abformung = none ∨ B.abformung = none) ∧
  (A.color = none ∨ B.color = none) ∧
  (A.rotationsschutz = none ∨ B.rotationsschutz = none) ∧
  (A.variant = none ∨ B.variant = none)

/-- The connection filter reads the `gingiva_mm` parameter as its derivation
hint, so the subsets must not split an active connection parameter from a
gingiva parameter (and at most one subset may activate the connection
filter). -/
def ConnOK (A B : Query) : Prop :=
  ¬(truthyO (effConn A) = true ∧ truthyO (effConn B) = true) ∧
  (truthyO (effConn A) = true → B.gingiva_mm = none) ∧
  (truthyO (effConn B) = true → A.gingiva_mm = none)

set_option synthInstance.maxSize 5000 in
instance (A B : Query) : Decidable (DisjointQ A B) := by
  unfold DisjointQ; infer_instance

instance (A B : Query) : Decidable (ConnOK A B) := by
  unfold ConnOK; infer_instance

/-! ### Specification-side definitions (worded from spec.md, for the
refinement-style claims) -/

/-- Spec §4.2 step 5: a candidate within 0.06 mm of 3.75 snaps exactly to
3.75, any other candidate is rounded to the nearest 0.1 mm. -/
def specSnap (v : ℚ) : ℚ :=
  if |v - 3.75| < 0.06 then 3.75 else ((round (10 * v) : ℤ) : ℚ) / 10

/-- Spec §4.2 step 6: return the first candidate, in extraction order, whose
snapped value belongs to the whitelist; null when none passes. -/
def specValidate (cands : List ℚ) : Option ℚ :=
  (cands.map specSnap).find? (fun u => decide (u ∈ allowQ))

/-- Spec §4.4 (amended): one filtered record's contribution to the
`connection_mm` facet - the derived value, kept only when inside
[3.0, 6.5] and not within 0.11 of the parsed gingiva hint, then bucketed by
snapping. -/
def specAcceptConn (hint : Option Str) (r : Rec) : Option ℚ :=
  (Facets.deriveConnectionMM r hint).bind (fun n =>
    if (3 ≤ n ∧ n ≤ 13/2) ∧ Facets.gingivaClash hint n = false then
      some (specSnap n)
    else none)

/-- Spec §4.4 (amended): the cleaned connection facet - counts of the
accepted buckets in first-occurrence order, singleton buckets dropped when
more than one distinct bucket remains, sorted by descending count. -/
def specConnFacet (items : List Rec) (p : Query) : List (ℚ × ℕ) :=
  let vals := (Facets.applyFilters items p).filterMap (specAcceptConn p.gingiva_mm)
  let entries := (firstKeys vals).map (fun k => (k, vals.count k))
  let pruned := if 1 < entries.length then entries.filter (fun e => 2 ≤ e.2) else entries
  sortCountDesc pruned

/-- Every possible `connection_mm` facet bucket: 3.75 and the one-decimal
values between 3.0 and 6.5. -/
def allowedKeys : List ℚ :=
  (15/4) :: (List.range 36).map (fun k => ((30 + k : ℕ) : ℚ) / 10)

/-! ### Concrete inputs for counterexamples and witnesses -/

def rC1 : Rec := { name_de := some (str "Schraube 10 mm") }

def rC1w : Rec := { diameter_mm := some (str "6.0"), name_de := some (str "(hex 4.1 mm)") }

def rC2 : Rec := { name_de := some (str "4 mm") }

def rC2w : Rec :=
  { diameter_mm := some (str "6.0")
    name_de := some (str "(hex 4.1 mm) x") }

def rC3w : Rec :=
  { name_de := some (str "Abutment Certain (Ext Hex, 4,1 mm), 5,0 mm")
    diameter_mm := some (str "5.0") }

def rC4 : Rec := { platform := some (str "6") }

def rC4w : Rec := { platform := some (str "P06"), name_de := some (str "(hex 3.5 mm)") }

def rC5 : Rec :=
  { diameter_mm := some (str "6.0")
    gingiva_mm := some (str "3.5")
    name_de := some (str "(Certain 3.5 mm) (hex 4.1 mm)") }

def qA5 : Query := { connection_mm := some (str "4.1") }

def qB5 : Query := { gingiva_mm := some (str "3.5") }

def rC5w : Rec := { group := some (str "Abutment"), color := some (str "blau") }

def qA5w : Query := { group := some (str "abutment") }

def qB5w : Query := { color := some (str "blau") }

def rC6 : Rec := { sku := some (str "U1") }

def rC7a : Rec := { name_de := some (str "(certain 5.0 mm)") }

def rC7b : Rec := { name_de := some (str "(certain 5.0 mm) b") }

def rC7c : Rec := { diameter_mm := some (str "5.0") }

def rC8 : Rec := { sku := some (str "A1") }

def rC8w : Rec := { sku := some (str "B2") }

def rC9 : Rec := { platform := some [] }

def rC9w : Rec := { platform := some (str "p06") }

def rC10 : Rec := { diameter_mm := some (str "4.1") }

/-! ## Helper lemmas -/

lemma candFilter_of_mem {r : Rec} {h : Option Str} {v : ℚ}
    (hv : v ∈ Facets.filteredCands r h) : Facets.candFilter r h v = true :=
  List.of_mem_filter hv

/-- Under a falsy explicit field and a truthy part diameter, a non-null
facets derivation comes from the filtered candidate list (the
single-candidate fallback needs `!partDia`). -/
lemma facets_derive_mem_filtered (r : Rec) (h : Option Str) (v : ℚ)
    (hex : truthyNum (explicitCand r) = false)
    (hdia : truthyNum (Facets.getPartDiameter r) = true)
    (hder : Facets.deriveConnectionMM r h = some v) :
    v ∈ Facets.filteredCands r h := by
  unfold Facets.deriveConnectionMM at hder
  simp only [hex, Bool.false_eq_true, if_false] at hder
  cases hfc : Facets.filteredCands r h with
  | nil =>
    rw [hfc] at hder
    rw [hdia] at hder
    simp at hder
  | cons w t =>
    rw [hfc] at hder
    simp only [Option.some.injEq] at hder
    rw [← hder]
    exact List.mem_cons_self w t

/-- The range conjuncts of the candidate filter. -/
lemma candFilter_range {r : Rec} {h : Option Str} {v : ℚ}
    (hf : Facets.candFilter r h v = true) : 3 ≤ v ∧ v ≤ 13/2 := by
  unfold Facets.candFilter at hf
  simp only [Bool.and_eq_true, decide_eq_true_eq] at hf
  tauto

/-- The diameter-exclusion conjunct of the candidate filter. -/
lemma candFilter_dia {r : Rec} {h : Option Str} {v d : ℚ}
    (hf : Facets.candFilter r h v = true)
    (hd : Facets.getPartDiameter r = some d) : ¬(|v - d| < 11/100) := by
  unfold Facets.candFilter at hf
  rw [hd] at hf
  simp only [Bool.and_eq_true, Bool.not_eq_eq_eq_not, Bool.not_true,
    decide_eq_false_iff_not] at hf
  tauto

/-- The hint-exclusion conjunct of the candidate filter. -/
lemma candFilter_hint {r : Rec} {h : Option Str} {v g : ℚ}
    (hf : Facets.candFilter r h v = true)
    (hg : toNum h = some g) : ¬(|v - g| < 11/100) := by
  unfold Facets.candFilter at hf
  rw [hg] at hf
  simp only [Bool.and_eq_true, Bool.not_eq_eq_eq_not, Bool.not_true,
    decide_eq_false_iff_not] at hf
  tauto

lemma fracVal_nonneg (ds : Str) : 0 ≤ fracVal ds := by
  unfold fracVal
  positivity

lemma parseFloatCore_nonneg (t : Str) (q : ℚ) (h : parseFloatCore t = some q) :
    0 ≤ q := by
  simp only [parseFloatCore] at h
  split at h
  · split at h
    · exact absurd h (by simp)
    · obtain rfl := Option.some.inj h
      exact add_nonneg (Nat.cast_nonneg _) (fracVal_nonneg _)
  · split at h
    · exact absurd h (by simp)
    · obtain rfl := Option.some.inj h
      exact Nat.cast_nonneg _

lemma toNum_minus (s : Str) : toNum (some ('-' :: s)) = toNum (some s) := by
  have h1 : replaceFirstComma ('-' :: s) = '-' :: replaceFirstComma s := by
    simp [replaceFirstComma]
  have h2 : ('-'.isDigit || '-' = '.') = false := by decide
  simp [toNum, h1, keepDigitsDots, h2]

lemma normConn_eq_specSnap (v : ℚ) : normConn v = specSnap v := by
  unfold normConn specSnap roundTo1
  rw [round_eq]
  norm_num

lemma firstAllowed_eq_specValidate (l : List ℚ) :
    Enrich.firstAllowed l = specValidate l := by
  induction l with
  | nil => rfl
  | cons v rest ih =>
    have hsnap := normConn_eq_specSnap v
    by_cases hm : specSnap v ∈ allowQ
    · simp [Enrich.firstAllowed, specValidate, hsnap, hm]
    · have hd : decide (specSnap v ∈ allowQ) = false := by simpa using hm
      simp only [Enrich.firstAllowed, specValidate, List.map_cons, List.find?_cons,
        hsnap, hd, if_neg hm]
      simpa [specValidate] using ih

/-! ## Query-merge lemmas (for C5) -/

lemma lower_none : lower (none : Option Str) = [] := rfl

lemma truthyO_none : truthyO (none : Option Str) = false := rfl

lemma oMerge_none_left (b : Option Str) : oMerge none b = b := rfl

lemma oMerge_none_right (a : Option Str) : oMerge a none = a := by
  cases a <;> rfl

lemma normPlatform_none : normPlatform none = none := rfl

lemma parseRotation_none : parseRotation none = [] := rfl

lemma truthyO_orTruthy (a b : Option Str) :
    truthyO (orTruthy a b) = (truthyO a || truthyO b) := by
  unfold orTruthy
  by_cases h : truthyO a = true
  · simp [h]
  · simp [Bool.not_eq_true] at h
    simp [h]

lemma truthyO_oMerge (a b : Option Str) (h : a = none ∨ b = none) :
    truthyO (oMerge a b) = (truthyO a || truthyO b) := by
  rcases h with h | h <;> simp [h, oMerge_none_left, oMerge_none_right, truthyO_none]

lemma checkQ_merge (A B : Query) (r : Rec) (h : A.q = none ∨ B.q = none) :
    checkQ (mergeQ A B) r = (checkQ A r && checkQ B r) := by
  rcases h with h | h <;>
    simp [checkQ, mergeQ, oMerge_none_left, oMerge_none_right, h, lower_none]

lemma checkPlatform_merge (A B : Query) (r : Rec)
    (h : A.platform = none ∨ B.platform = none) :
    checkPlatform (mergeQ A B) r = (checkPlatform A r && checkPlatform B r) := by
  rcases h with h | h <;>
    simp [checkPlatform, platformSel, mergeQ, oMerge_none_left, oMerge_none_right,
      h, normPlatform_none]

lemma checkGroup_merge (A B : Query) (r : Rec) (h : A.group = none ∨ B.group = none) :
    checkGroup (mergeQ A B) r = (checkGroup A r && checkGroup B r) := by
  rcases h with h | h <;>
    simp [checkGroup, mergeQ, oMerge_none_left, oMerge_none_right, h, lower_none]

lemma checkProdGroup_merge (A B : Query) (r : Rec)
    (h : A.product_group = none ∨ B.product_group = none) :
    checkProdGroup (mergeQ A B) r = (checkProdGroup A r && checkProdGroup B r) := by
  rcases h with h | h <;>
    simp [checkProdGroup, mergeQ, oMerge_none_left, oMerge_none_right, h, lower_none]

lemma checkDiameter_merge (A B : Query) (r : Rec)
    (h : A.diameter_mm = none ∨ B.diameter_mm = none) :
    checkDiameter (mergeQ A B) r = (checkDiameter A r && checkDiameter B r) := by
  rcases h with h | h <;>
    simp [checkDiameter, mergeQ, oMerge_none_left, oMerge_none_right, h, truthyO_none]

lemma checkLength_merge (A B : Query) (r : Rec)
    (h : A.length_mm = none ∨ B.length_mm = none) :
    checkLength (mergeQ A B) r = (checkLength A r && checkLength B r) := by
  rcases h with h | h <;>
    simp [checkLength, mergeQ, oMerge_none_left, oMerge_none_right, h, truthyO_none]

lemma checkGingiva_merge (A B : Query) (r : Rec)
    (h : A.gingiva_mm = none ∨ B.gingiva_mm = none) :
    checkGingiva (mergeQ A B) r = (checkGingiva A r && checkGingiva B r) := by
  rcases h with h | h <;>
    simp [checkGingiva, mergeQ, oMerge_none_left, oMerge_none_right, h, truthyO_none]

lemma checkAngulation_merge (A B : Query) (r : Rec)
    (h : A.angulation_deg = none ∨ B.angulation_deg = none) :
    checkAngulation (mergeQ A B) r = (checkAngulation A r && checkAngulation B r) := by
  rcases h with h | h <;>
    simp [checkAngulation, mergeQ, oMerge_none_left, oMerge_none_right, h, truthyO_none]

lemma checkAbformung_merge (A B : Query) (r : Rec)
    (h : A.abformung = none ∨ B.abformung = none) :
    checkAbformung (mergeQ A B) r = (checkAbformung A r && checkAbformung B r) := by
  rcases h with h | h <;>
    simp [checkAbformung, mergeQ, oMerge_none_left, oMerge_none_right, h, lower_none]

lemma checkColor_merge (A B : Query) (r : Rec) (h : A.color = none ∨ B.color = none) :
    checkColor (mergeQ A B) r = (checkColor A r && checkColor B r) := by
  rcases h with h | h <;>
    simp [checkColor, mergeQ, oMerge_none_left, oMerge_none_right, h, lower_none]

lemma checkRotation_merge (A B : Query) (r : Rec)
    (h : A.rotationsschutz = none ∨ B.rotationsschutz = none) :
    checkRotation (mergeQ A B) r = (checkRotation A r && checkRotation B r) := by
  rcases h with h | h <;>
    simp [checkRotation, mergeQ, oMerge_none_left, oMerge_none_right, h,
      parseRotation_none]

lemma checkVariant_merge (A B : Query) (r : Rec)
    (h : A.variant = none ∨ B.variant = none) :
    checkVariant (mergeQ A B) r = (checkVariant A r && checkVariant B r) := by
  rcases h with h | h <;>
    simp [checkVariant, mergeQ, oMerge_none_left, oMerge_none_right, h, lower_none]

lemma orTruthy_oMerge_left (ac ap bc bp : Option Str)
    (hdc : ac = none ∨ bc = none) (hdp : ap = none ∨ bp = none)
    (hA : truthyO (orTruthy ac ap) = true)
    (hB : truthyO (orTruthy bc bp) = false) :
    orTruthy (oMerge ac bc) (oMerge ap bp) = orTruthy ac ap := by
  rw [truthyO_orTruthy] at hA hB
  simp only [Bool.or_eq_true] at hA
  simp only [Bool.or_eq_false_iff] at hB
  rcases hdc with hc | hc <;> rcases hdp with hp | hp
  · rcases hA with hA | hA
    · rw [hc] at hA; exact absurd hA (by simp [truthyO_none])
    · rw [hp] at hA; exact absurd hA (by simp [truthyO_none])
  · rw [hc, oMerge_none_left, hp, oMerge_none_right]
    rcases hA with hA | hA
    · rw [hc] at hA; exact absurd hA (by simp [truthyO_none])
    · simp [hc, orTruthy, truthyO_none, hA, hB.1]
  · rw [hc, oMerge_none_right, hp, oMerge_none_left]
    rcases hA with hA | hA
    · simp [orTruthy, hA]
    · rw [hp] at hA; exact absurd hA (by simp [truthyO_none])
  · rw [hc, hp, oMerge_none_right, oMerge_none_right]

lemma orTruthy_oMerge_right (ac ap bc bp : Option Str)
    (hdc : ac = none ∨ bc = none) (hdp : ap = none ∨ bp = none)
    (hA : truthyO (orTruthy ac ap) = false)
    (hB : truthyO (orTruthy bc bp) = true) :
    orTruthy (oMerge ac bc) (oMerge ap bp) = orTruthy bc bp := by
  rw [truthyO_orTruthy] at hA hB
  simp only [Bool.or_eq_false_iff] at hA
  simp only [Bool.or_eq_true] at hB
  rcases hdc with hc | hc <;> rcases hdp with hp | hp
  · rw [hc, oMerge_none_left, hp, oMerge_none_left]
  · rw [hc, oMerge_none_left, hp, oMerge_none_right]
    rcases hB with hB | hB
    · simp [orTruthy, hB]
    · rw [hp] at hB; exact absurd hB (by simp [truthyO_none])
  · rw [hc, oMerge_none_right, hp, oMerge_none_left]
    rcases hB with hB | hB
    · rw [hc] at hB; exact absurd hB (by simp [truthyO_none])
    · simp [hc, orTruthy, truthyO_none, hA.1, hB]
  · rcases hB with hB | hB
    · rw [hc] at hB; exact absurd hB (by simp [truthyO_none])
    · rw [hp] at hB; exact absurd hB (by simp [truthyO_none])

lemma effConn_mergeQ (A B : Query) : effConn (mergeQ A B) =
    orTruthy (oMerge A.connection_mm B.connection_mm)
      (oMerge A.prothetik_diameter_mm B.prothetik_diameter_mm) := rfl

lemma checkConnection_merge (A B : Query) (r : Rec)
    (hdc : A.connection_mm = none ∨ B.connection_mm = none)
    (hdp : A.prothetik_diameter_mm = none ∨ B.prothetik_diameter_mm = none)
    (hok : ConnOK A B) :
    Facets.checkConnection (mergeQ A B) r =
      (Facets.checkConnection A r && Facets.checkConnection B r) := by
  obtain ⟨hboth, hgA, hgB⟩ := hok
  by_cases hA : truthyO (effConn A) = true
  · have hB : truthyO (effConn B) = false := by
      cases hB2 : truthyO (effConn B)
      · rfl
      · exact absurd ⟨hA, hB2⟩ hboth
    have hge : (mergeQ A B).gingiva_mm = A.gingiva_mm := by
      simp [mergeQ, hgA hA, oMerge_none_right]
    have heff : effConn (mergeQ A B) = effConn A := by
      rw [effConn_mergeQ]
      exact orTruthy_oMerge_left _ _ _ _ hdc hdp hA hB
    simp [Facets.checkConnection, heff, hge, hA, hB]
  · have hA2 : truthyO (effConn A) = false := by simpa using hA
    by_cases hB : truthyO (effConn B) = true
    · have hge : (mergeQ A B).gingiva_mm = B.gingiva_mm := by
        simp [mergeQ, hgB hB, oMerge_none_left]
      have heff : effConn (mergeQ A B) = effConn B := by
        rw [effConn_mergeQ]
        exact orTruthy_oMerge_right _ _ _ _ hdc hdp hA2 hB
      simp [Facets.checkConnection, heff, hge, hA2, hB]
    · have hB2 : truthyO (effConn B) = false := by simpa using hB
      have hm : truthyO (effConn (mergeQ A B)) = false := by
        rw [effConn_mergeQ, truthyO_orTruthy, truthyO_oMerge _ _ hdc,
          truthyO_oMerge _ _ hdp]
        have hA3 : (truthyO A.connection_mm || truthyO A.prothetik_diameter_mm) = false := by
          rw [← truthyO_orTruthy]; exact hA2
        have hB3 : (truthyO B.connection_mm || truthyO B.prothetik_diameter_mm) = false := by
          rw [← truthyO_orTruthy]; exact hB2
        simp only [Bool.or_eq_false_iff] at hA3 hB3
        simp [hA3.1, hA3.2, hB3.1, hB3.2]
      simp [Facets.checkConnection, hA2, hB2, hm]

lemma interleave13 (a1 a2 a3 a4 a5 a6 a7 a8 a9 a10 a11 a12 a13
    b1 b2 b3 b4 b5 b6 b7 b8 b9 b10 b11 b12 b13 : Bool) :
    ((a1 && b1) && (a2 && b2) && (a3 && b3) && (a4 && b4) && (a5 && b5) &&
      (a6 && b6) && (a7 && b7) && (a8 && b8) && (a9 && b9) && (a10 && b10) &&
      (a11 && b11) && (a12 && b12) && (a13 && b13)) =
    ((a1 && a2 && a3 && a4 && a5 && a6 && a7 && a8 && a9 && a10 && a11 && a12 && a13) &&
      (b1 && b2 && b3 && b4 && b5 && b6 && b7 && b8 && b9 && b10 && b11 && b12 && b13)) := by
  cases a1 <;> cases b1 <;> simp <;>
    cases a2 <;> cases b2 <;> simp <;>
    cases a3 <;> cases b3 <;> simp <;>
    cases a4 <;> cases b4 <;> simp <;>
    cases a5 <;> cases b5 <;> simp <;>
    cases a6 <;> cases b6 <;> simp <;>
    cases a7 <;> cases b7 <;> simp <;>
    cases a8 <;> cases b8 <;> simp <;>
    cases a9 <;> cases b9 <;> simp <;>
    cases a10 <;> cases b10 <;> simp <;>
    cases a11 <;> cases b11 <;> simp <;>
    cases a12 <;> cases b12 <;> simp

lemma passes_merge (A B : Query) (r : Rec) (hd : DisjointQ A B) (hok : ConnOK A B) :
    Facets.passes (mergeQ A B) r = (Facets.passes A r && Facets.passes B r) := by
  obtain ⟨d1, d2, d3, d4, d5, d6, d7, d8, d9, d10, d11, d12, d13, d14⟩ := hd
  rw [Facets.passes, Facets.passes, Facets.passes,
    checkQ_merge A B r d1, checkPlatform_merge A B r d2, checkGroup_merge A B r d3,
    checkProdGroup_merge A B r d4, checkDiameter_merge A B r d5,
    checkLength_merge A B r d6, checkGingiva_merge A B r d7,
    checkAngulation_merge A B r d8, checkConnection_merge A B r d9 d10 hok,
    checkAbformung_merge A B r d11, checkColor_merge A B r d12,
    checkRotation_merge A B r d13, checkVariant_merge A B r d14]
  exact interleave13 (checkQ A r) (checkPlatform A r) (checkGroup A r)
    (checkProdGroup A r) (checkDiameter A r) (checkLength A r) (checkGingiva A r)
    (checkAngulation A r) (Facets.checkConnection A r) (checkAbformung A r)
    (checkColor A r) (checkRotation A r) (checkVariant A r)
    (checkQ B r) (checkPlatform B r) (checkGroup B r) (checkProdGroup B r)
    (checkDiameter B r) (checkLength B r) (checkGingiva B r) (checkAngulation B r)
    (Facets.checkConnection B r) (checkAbformung B r) (checkColor B r)
    (checkRotation B r) (checkVariant B r)

/-! ## Counter / sort lemmas (for C6 and C7) -/

lemma mem_foldl_keys {K : Type} [DecidableEq K] (vs : List K) :
    ∀ (acc : List K) (v : K),
      v ∈ vs.foldl (fun a x => if x ∈ a then a else a ++ [x]) acc ↔
        v ∈ acc ∨ v ∈ vs := by
  induction vs with
  | nil => intro acc v; simp
  | cons x rest ih =>
    intro acc v
    simp only [List.foldl_cons]
    rw [ih]
    by_cases hx : x ∈ acc
    · rw [if_pos hx]
      simp only [List.mem_cons]
      constructor
      · tauto
      · rintro (h | h | h)
        · exact Or.inl h
        · exact Or.inl (h ▸ hx)
        · exact Or.inr h
    · rw [if_neg hx]
      simp only [List.mem_append, List.mem_singleton, List.mem_cons]
      tauto

lemma mem_firstKeys {K : Type} [DecidableEq K] (vs : List K) (v : K) :
    v ∈ firstKeys vs ↔ v ∈ vs := by
  unfold firstKeys
  rw [mem_foldl_keys]
  simp

lemma nodup_firstKeys {K : Type} [DecidableEq K] (vs : List K) :
    (firstKeys vs).Nodup := by
  suffices h : ∀ acc : List K, acc.Nodup →
      (vs.foldl (fun a x => if x ∈ a then a else a ++ [x]) acc).Nodup from
    h [] (by simp)
  induction vs with
  | nil => intro acc h; simpa using h
  | cons x rest ih =>
    intro acc h
    simp only [List.foldl_cons]
    apply ih
    by_cases hx : x ∈ acc
    · simpa [hx] using h
    · rw [if_neg hx]
      simp [List.nodup_append, h, hx]

lemma firstKeys_concat {K : Type} [DecidableEq K] (pre : List K) (v : K) :
    firstKeys (pre ++ [v]) =
      if v ∈ pre then firstKeys pre else firstKeys pre ++ [v] := by
  unfold firstKeys
  rw [List.foldl_append]
  simp only [List.foldl_cons, List.foldl_nil]
  by_cases hv : v ∈ pre
  · rw [if_pos hv, if_pos (by rw [show (List.foldl (fun a x => if x ∈ a then a else a ++ [x]) [] pre) = firstKeys pre from rfl, mem_firstKeys]; exact hv)]
  · rw [if_neg hv, if_neg (by rw [show (List.foldl (fun a x => if x ∈ a then a else a ++ [x]) [] pre) = firstKeys pre from rfl, mem_firstKeys]; exact hv)]

lemma bump_tallyOf {K : Type} [DecidableEq K] (pre : List K) (v : K) :
    bump ((firstKeys pre).map (fun k => (k, pre.count k))) v =
      (firstKeys (pre ++ [v])).map (fun k => (k, (pre ++ [v]).count k)) := by
  by_cases hv : v ∈ pre
  · have hany : (((firstKeys pre).map (fun k => (k, pre.count k))).any
        (fun e => e.1 = v)) = true := by
      rw [List.any_eq_true]
      exact ⟨(v, pre.count v), List.mem_map_of_mem _ ((mem_firstKeys pre v).mpr hv),
        by simp⟩
    rw [bump, if_pos hany, firstKeys_concat, if_pos hv, List.map_map]
    apply List.map_congr_left
    intro k hk
    simp only [Function.comp_apply, List.count_append, List.count_singleton]
    by_cases hkv : k = v
    · simp [hkv]
    · have : (v == k) = false := by simp [Ne.symm hkv]
      simp [hkv, this]
  · have hany : (((firstKeys pre).map (fun k => (k, pre.count k))).any
        (fun e => e.1 = v)) = false := by
      rw [List.any_eq_false]
      intro e he
      rw [List.mem_map] at he
      obtain ⟨k2, hk2, rfl⟩ := he
      simp only [decide_eq_true_eq]
      rintro rfl
      exact hv ((mem_firstKeys pre _).mp hk2)
    rw [bump, if_neg (by rw [hany]; exact Bool.false_ne_true), firstKeys_concat,
      if_neg hv, List.map_append]
    congr 1
    · apply List.map_congr_left
      intro k hk
      have hkp : k ∈ pre := (mem_firstKeys pre k).mp hk
      have : (v == k) = false := by
        simp only [beq_eq_false_iff_ne, ne_eq]
        rintro rfl
        exact hv hkp
      simp [List.count_append, List.count_singleton, this]
    · simp [List.count_append, List.count_singleton, List.count_eq_zero.mpr hv]

lemma tally_spec {K : Type} [DecidableEq K] (vs : List K) :
    tally vs = (firstKeys vs).map (fun k => (k, vs.count k)) := by
  suffices h : ∀ pre : List K,
      vs.foldl bump ((firstKeys pre).map (fun k => (k, pre.count k))) =
        (firstKeys (pre ++ vs)).map (fun k => (k, (pre ++ vs).count k)) by
    have h0 := h []
    simpa [tally, firstKeys] using h0
  induction vs with
  | nil => intro pre; simp
  | cons v rest ih =>
    intro pre
    simp only [List.foldl_cons]
    rw [bump_tallyOf pre v, ih (pre ++ [v])]
    simp

lemma mem_insCD {K : Type} (x z : K × ℕ) (l : List (K × ℕ)) :
    z ∈ insCD x l ↔ z = x ∨ z ∈ l := by
  induction l with
  | nil => simp [insCD]
  | cons y t ih =>
    unfold insCD
    by_cases h : y.2 ≤ x.2
    · simp only [if_pos h, List.mem_cons]
    · simp only [if_neg h, List.mem_cons, ih]
      tauto

lemma pairwise_insCD {K : Type} (x : K × ℕ) (l : List (K × ℕ))
    (hl : l.Pairwise (fun a b => b.2 ≤ a.2)) :
    (insCD x l).Pairwise (fun a b => b.2 ≤ a.2) := by
  induction l with
  | nil => simp [insCD]
  | cons y t ih =>
    obtain ⟨hy, ht⟩ := List.pairwise_cons.mp hl
    unfold insCD
    by_cases h : y.2 ≤ x.2
    · rw [if_pos h]
      refine List.Pairwise.cons ?_ hl
      intro z hz
      rcases List.mem_cons.mp hz with rfl | hz
      · exact h
      · exact le_trans (hy z hz) h
    · rw [if_neg h]
      refine List.Pairwise.cons ?_ (ih ht)
      intro z hz
      rcases (mem_insCD x z t).mp hz with rfl | hz
      · omega
      · exact hy z hz

lemma sortCountDesc_sorted {K : Type} (l : List (K × ℕ)) :
    (sortCountDesc l).Pairwise (fun a b => b.2 ≤ a.2) := by
  induction l with
  | nil => simp [sortCountDesc]
  | cons x t ih => exact pairwise_insCD x _ ih

lemma length_insCD {K : Type} (x : K × ℕ) (l : List (K × ℕ)) :
    (insCD x l).length = l.length + 1 := by
  induction l with
  | nil => rfl
  | cons y t ih =>
    unfold insCD
    by_cases h : y.2 ≤ x.2
    · simp [if_pos h]
    · simp [if_neg h, ih]

lemma length_sortCountDesc {K : Type} (l : List (K × ℕ)) :
    (sortCountDesc l).length = l.length := by
  induction l with
  | nil => rfl
  | cons x t ih => simp [sortCountDesc, length_insCD, ih]

lemma length_le_of_nodup_subset {K : Type} [DecidableEq K] (l m : List K)
    (hn : l.Nodup) (hs : ∀ x ∈ l, x ∈ m) : l.length ≤ m.length :=
  calc l.length = l.toFinset.card := (List.toFinset_card_of_nodup hn).symm
    _ ≤ m.toFinset.card := Finset.card_le_card (fun x hx => by
        rw [List.mem_toFinset] at hx ⊢; exact hs x hx)
    _ ≤ m.length := List.toFinset_card_le m

lemma normConn_mem_allowedKeys (n : ℚ) (h3 : 3 ≤ n) (h65 : n ≤ 13/2) :
    normConn n ∈ allowedKeys := by
  unfold normConn
  by_cases hs : |n - 15/4| < 3/50
  · rw [if_pos hs]
    exact List.mem_cons_self _ _
  · rw [if_neg hs]
    unfold roundTo1 allowedKeys
    apply List.mem_cons_of_mem
    rw [List.mem_map]
    have h1 : (30 : ℤ) ≤ ⌊10 * n + 1/2⌋ := by
      rw [Int.le_floor]
      push_cast
      linarith
    have h2 : ⌊10 * n + 1/2⌋ ≤ 65 := by
      have hle : (10 * n + 1/2 : ℚ) ≤ 131/2 := by linarith
      have := Int.floor_le_floor hle
      have h131 : ⌊(131/2 : ℚ)⌋ = 65 := by
        rw [Int.floor_eq_iff]
        norm_num
      omega
    refine ⟨(⌊10 * n + 1/2⌋ - 30).toNat, List.mem_range.mpr (by omega), ?_⟩
    have hcast : ((30 + (⌊10 * n + 1/2⌋ - 30).toNat : ℕ) : ℚ) =
        ((⌊10 * n + 1/2⌋ : ℤ) : ℚ) := by
      have hz : ((30 + (⌊10 * n + 1/2⌋ - 30).toNat : ℕ) : ℤ) = ⌊10 * n + 1/2⌋ := by
        omega
      exact_mod_cast congrArg (fun z : ℤ => (z : ℚ)) hz
    rw [hcast]

lemma acceptConn_mem_allowedKeys (hint : Option Str) (r : Rec) (v : ℚ)
    (h : Facets.acceptConn hint r = some v) : v ∈ allowedKeys := by
  unfold Facets.acceptConn at h
  have key : ∀ o : Option ℚ,
      (match o with
       | none => none
       | some n =>
         if decide (n < 3) || decide (n > 13/2) then none
         else if Facets.gingivaClash hint n then none
         else some (normConn n)) = some v → v ∈ allowedKeys := by
    intro o
    rcases o with - | n
    · intro hh
      exact absurd hh (by simp)
    · show (if decide (n < 3) || decide (n > 13/2) then none
        else if Facets.gingivaClash hint n then (none : Option ℚ)
        else some (normConn n)) = some v → v ∈ allowedKeys
      intro hh
      by_cases h1 : (decide (n < 3) || decide (n > 13/2)) = true
      · rw [if_pos h1] at hh
        exact absurd hh (by simp)
      · rw [if_neg h1] at hh
        by_cases h2 : Facets.gingivaClash hint n = true
        · rw [if_pos h2] at hh
          exact absurd hh (by simp)
        · rw [if_neg h2] at hh
          obtain rfl := Option.some.inj hh
          have h3 : 3 ≤ n := not_lt.mp (fun hlt => h1 (by simp [hlt]))
          have h65 : n ≤ 13/2 := not_lt.mp (fun hlt => h1 (by simp [hlt]))
          exact normConn_mem_allowedKeys n h3 h65
  exact key (Facets.deriveConnectionMM r hint) h

lemma connFacetH_length_le (items : List Rec) (p : Query) :
    (Facets.connFacetH items p).length ≤ 50 := by
  have hsub : ∀ v ∈ firstKeys ((Facets.applyFilters items p).filterMap
      (Facets.acceptConn p.gingiva_mm)), v ∈ allowedKeys := by
    intro v hv
    rw [mem_firstKeys, List.mem_filterMap] at hv
    obtain ⟨r, -, hr⟩ := hv
    exact acceptConn_mem_allowedKeys _ _ _ hr
  have hfk := length_le_of_nodup_subset _ allowedKeys (nodup_firstKeys _) hsub
  have hA : allowedKeys.length = 37 := by simp [allowedKeys]
  have ht : (tally ((Facets.applyFilters items p).filterMap
      (Facets.acceptConn p.gingiva_mm))).length ≤ 37 := by
    rw [tally_spec, List.length_map]
    omega
  simp only [Facets.connFacetH]
  rw [length_sortCountDesc]
  by_cases hc : 1 < (tally ((Facets.applyFilters items p).filterMap
      (Facets.acceptConn p.gingiva_mm))).length
  · rw [if_pos hc]
    have := List.length_filter_le (fun e : ℚ × ℕ => decide (2 ≤ e.2))
      (tally ((Facets.applyFilters items p).filterMap (Facets.acceptConn p.gingiva_mm)))
    omega
  · rw [if_neg hc]
    omega

lemma countsProp {K : Type} [DecidableEq K] (extract : Rec → Option K)
    (items : List Rec) :
    ((countValues extract items).map (fun e => e.2)).length ≤ 50 ∧
    ((countValues extract items).map (fun e => e.2)).Pairwise
      (fun a b : ℕ => b ≤ a) := by
  constructor
  · rw [List.length_map]
    unfold countValues
    exact List.length_take_le _ _
  · rw [List.pairwise_map]
    unfold countValues
    exact List.Pairwise.sublist (List.take_sublist _ _) (sortCountDesc_sorted _)

lemma connProp (items : List Rec) (p : Query) :
    ((Facets.connFacetH items p).map (fun e => e.2)).length ≤ 50 ∧
    ((Facets.connFacetH items p).map (fun e => e.2)).Pairwise
      (fun a b : ℕ => b ≤ a) := by
  constructor
  · rw [List.length_map]
    exact connFacetH_length_le items p
  · rw [List.pairwise_map]
    simp only [Facets.connFacetH]
    exact sortCountDesc_sorted _

/-! ## C5 - filter composition -/

/-- C5 counterexample: the connection filter derives with the query's
`gingiva_mm` as hint, so splitting `connection_mm=4.1` from `gingiva_mm=3.5`
changes the derivation.  On a record named
"(Certain 3.5 mm) (hex 4.1 mm)" with diameter 6.0 and gingiva 3.5, the
combined query keeps the record (hint excludes the 3.5 candidate, deriving
4.1) but filtering by `connection_mm=4.1` first derives 3.5 and drops it,
so `filter(filter(records, A), B) ≠ filter(records, {A,B})`. -/
theorem c5_counterexample :
    Facets.applyFilters (Facets.applyFilters [rC5] qA5) qB5 = [] ∧
    Facets.applyFilters [rC5] (mergeQ qA5 qB5) = [rC5] := by
  constructor
  · decide
  · decide

/-- C5 (amended): for disjoint query subsets that do not split an active
connection parameter from a gingiva parameter (and do not both activate the
connection filter), filtering by the combined query equals filtering by one
subset and then the other; all predicates combine by logical AND. -/
theorem c5_filter_composition (A B : Query) (hd : DisjointQ A B) (hok : ConnOK A B)
    (items : List Rec) :
    Facets.applyFilters (Facets.applyFilters items A) B =
      Facets.applyFilters items (mergeQ A B) := by
  unfold Facets.applyFilters
  rw [List.filter_filter]
  apply List.filter_congr
  intro r _
  rw [passes_merge A B r hd hok, Bool.and_comm]

/-- C5 witness: disjoint subsets `group=abutment` and `color=blau` compose
on a concrete record. -/
theorem c5_filter_composition_witness :
    Facets.applyFilters (Facets.applyFilters [rC5w] qA5w) qB5w =
      Facets.applyFilters [rC5w] (mergeQ qA5w qB5w) :=
  c5_filter_composition qA5w qB5w (by decide) (by decide) [rC5w]

/-! ## C1 - range invariant of the deriver -/

/-- C1 counterexample: the facets/search deriver's single-candidate fallback
(`!partDia && mm.length === 1`) returns a raw text number; on the record
named "Schraube 10 mm" it returns 10, far outside [3.0, 6.5], so "the
deriver returns either null or a number within [3.0, 6.5]" is false. -/
theorem c1_counterexample :
    Facets.deriveConnectionMM rC1 none = some 10 ∧ ¬((10 : ℚ) ≤ 13/2) := by
  constructor
  · decide
  · norm_num

/-- C1 (amended): when the explicit connection field is falsy and the record
has a truthy part diameter (so the single-candidate fallback cannot fire), a
non-null derived connection value lies within [3.0, 6.5]. -/
theorem c1_range_of_filtered_path (r : Rec) (h : Option Str) (v : ℚ)
    (hex : truthyNum (explicitCand r) = false)
    (hdia : truthyNum (Facets.getPartDiameter r) = true)
    (hder : Facets.deriveConnectionMM r h = some v) :
    3 ≤ v ∧ v ≤ 13/2 :=
  candFilter_range (candFilter_of_mem (facets_derive_mem_filtered r h v hex hdia hder))

/-- C1 witness: the record with diameter 6.0 named "(hex 4.1 mm)" satisfies
the hypotheses and derives 4.1, which the theorem places in [3.0, 6.5]. -/
theorem c1_range_witness : 3 ≤ (41/10 : ℚ) ∧ (41/10 : ℚ) ≤ 13/2 :=
  c1_range_of_filtered_path rC1w none (41/10) (by decide) (by decide) (by decide)

/-! ## C2 - exclusion invariant of the deriver -/

/-- C2 counterexample: on the record named "4 mm" with hint "4.0" the
single-candidate fallback returns 4, which is tolerance-equal (within 0.11)
to the supplied hint, so the exclusion invariant fails as stated. -/
theorem c2_counterexample :
    Facets.deriveConnectionMM rC2 (some (str "4.0")) = some 4 ∧
    toNum (some (str "4.0")) = some 4 ∧ |(4 : ℚ) - 4| < 11/100 := by
  refine ⟨by decide, by decide, by norm_num⟩

/-- C2 (amended): when the explicit connection field is falsy and the record
has a truthy part diameter, a non-null derived value is never within 0.11 of
the part diameter nor of the parsed hint. -/
theorem c2_exclusion_of_filtered_path (r : Rec) (h : Option Str) (v : ℚ)
    (hex : truthyNum (explicitCand r) = false)
    (hdia : truthyNum (Facets.getPartDiameter r) = true)
    (hder : Facets.deriveConnectionMM r h = some v) :
    (∀ d, Facets.getPartDiameter r = some d → ¬(|v - d| < 11/100)) ∧
    (∀ g, toNum h = some g → ¬(|v - g| < 11/100)) := by
  have hf := candFilter_of_mem (facets_derive_mem_filtered r h v hex hdia hder)
  exact ⟨fun d hd => candFilter_dia hf hd, fun g hg => candFilter_hint hf hg⟩

/-- C2 witness: the record with diameter 6.0 named "(hex 4.1 mm) x" under
hint "3.0" derives 4.1, and the theorem separates it from the diameter. -/
theorem c2_exclusion_witness : ¬(|(41/10 : ℚ) - 6| < 11/100) :=
  (c2_exclusion_of_filtered_path rC2w (some (str "3.0")) (41/10)
    (by decide) (by decide) (by decide)).1 6 (by decide)

/-! ## C3 - snapping and whitelist validation of the text path -/

/-- C3: when the enrichment deriver reaches the text path (no explicit
`connection_mm`, platform not `P06`/`P07`), it returns exactly the
spec-described validation of the filtered candidates: the first candidate,
in extraction order, whose snapped value (3.75 inside a 0.06 window, else
rounded to the nearest 0.1) belongs to the whitelist, or null. -/
theorem c3_snap_whitelist (r : Rec)
    (hconn : r.connection_mm = none ∨ r.connection_mm = some [])
    (h6 : jsUpper (norm r.platform) ≠ str "P06")
    (h7 : jsUpper (norm r.platform) ≠ str "P07") :
    Enrich.deriveConnectionMM r = specValidate (Enrich.filteredCands r) := by
  rcases hconn with hc | hc <;>
    simp [Enrich.deriveConnectionMM, hc, h6, h7, firstAllowed_eq_specValidate]

/-- C3 witness: the spec's own scenario record (name
"Abutment Certain (Ext Hex, 4,1 mm), 5,0 mm", diameter 5.0) goes through
the text path and derives the validated 4.1. -/
theorem c3_snap_whitelist_witness :
    Enrich.deriveConnectionMM rC3w = specValidate (Enrich.filteredCands rC3w) ∧
    Enrich.deriveConnectionMM rC3w = some (41/10) :=
  ⟨c3_snap_whitelist rC3w (Or.inl rfl) (by decide) (by decide), by decide⟩

/-! ## C4 - platform defaults -/

/-- C4 counterexample: the record with `platform: "6"` canonicalises to
`P06` under `normPlatform` and has no explicit connection field, yet the
enrichment deriver compares the raw uppercased platform literally, misses
the default, and returns null instead of the claimed 4.1. -/
theorem c4_counterexample :
    normPlatform rC4.platform = some (str "P06") ∧ rC4.connection_mm = none ∧
    Enrich.deriveConnectionMM rC4 ≠ some (41/10) := by
  refine ⟨by decide, rfl, by decide⟩

/-- C4 (amended): when the record carries no explicit connection field and
its trimmed, uppercased platform string is literally "P06" (resp. "P07"),
the enrichment deriver returns 4.1 (resp. 5.0), bypassing text
extraction. -/
theorem c4_platform_default_literal (r : Rec)
    (hconn : r.connection_mm = none ∨ r.connection_mm = some []) :
    (jsUpper (norm r.platform) = str "P06" →
      Enrich.deriveConnectionMM r = some (41/10)) ∧
    (jsUpper (norm r.platform) = str "P07" →
      Enrich.deriveConnectionMM r = some 5) := by
  have hne : str "P07" ≠ str "P06" := by decide
  constructor <;> intro hp <;> rcases hconn with hc | hc <;>
    simp [Enrich.deriveConnectionMM, hc, hp, hne]

/-- C4 witness: a record with literal platform "P06" and a name mentioning
3.5 mm still derives 4.1 via the platform default. -/
theorem c4_platform_default_witness :
    Enrich.deriveConnectionMM rC4w = some (41/10) :=
  (c4_platform_default_literal rC4w (Or.inl rfl)).1 (by decide)

/-! ## C8 - limit handling -/

/-- C8 counterexample: with `limit=abc` the search endpoint returns an empty
item list (parseInt yields NaN, which survives the clamp and empties the
slice), while with the parameter absent the same one-record catalog returns
the record; an unparseable limit is therefore not treated as absent. -/
theorem c8_counterexample :
    Search.searchItems [rC8] { limit := some (str "abc") } = [] ∧
    Search.searchItems [rC8] {} = [rC8] := by
  constructor
  · decide
  · decide

/-- C8 (amended): an absent or empty limit defaults to 10; a parseable limit
is clamped to [1, 50]; a non-empty unparseable limit propagates NaN through
`Math.max`/`Math.min` and `slice(0, NaN)` yields an empty item list. -/
theorem c8_limit_clamp (items : List Rec) (p : Query) :
    (∀ s, p.limit = some s → s.isEmpty = false → parseIntJS s = none →
      Search.searchItems items p = []) ∧
    (∀ s n, p.limit = some s → parseIntJS s = some n →
      Search.searchItems items p =
        (Search.filterItems items p).take (max 1 (min 50 n)).toNat) ∧
    ((p.limit = none ∨ p.limit = some []) →
      Search.searchItems items p = (Search.filterItems items p).take 10) := by
  refine ⟨?_, ?_, ?_⟩
  · intro s hs hne hpi
    simp [Search.searchItems, Search.limitOf, hs, hne, hpi]
  · intro s n hs hpi
    have hne : s.isEmpty = false := by
      cases hse : s.isEmpty
      · rfl
      · rw [List.isEmpty_iff] at hse
        rw [hse] at hpi
        have hn : parseIntJS ([] : Str) = none := by decide
        rw [hn] at hpi
        exact absurd hpi (by simp)
    simp [Search.searchItems, Search.limitOf, hs, hne, hpi]
  · intro hc
    have h10 : parseIntJS (str "10") = some 10 := by decide
    rcases hc with hc | hc <;>
      simp [Search.searchItems, Search.limitOf, hc, h10]

/-- C8 witness: `limit=7` on a one-record catalog takes the clamped 7. -/
theorem c8_limit_clamp_witness :
    Search.searchItems [rC8w] { limit := some (str "7") } =
      (Search.filterItems [rC8w] { limit := some (str "7") }).take
        (max 1 (min 50 (7 : ℤ))).toNat :=
  (c8_limit_clamp [rC8w] { limit := some (str "7") }).2.1 (str "7") 7 rfl (by decide)

/-! ## C9 - platform filtering -/

/-- C9 counterexample: a record whose platform field is present but empty is
kept by `platform=universal` (JS truthiness), although it has a platform
field, so "returns exactly the records that have no platform field" is
false as stated. -/
theorem c9_counterexample :
    Search.filterItems [rC9] { platform := some (str "universal") } = [rC9] ∧
    rC9.platform ≠ none := by
  constructor
  · decide
  · decide

/-- C9 (amended): `platform=universal` keeps exactly the records whose
platform field is absent or empty (falsy); a non-sentinel selected platform
code keeps exactly the records whose uppercased platform equals it. -/
theorem c9_platform_filter (items : List Rec) :
    (Search.filterItems items { platform := some (str "universal") } =
      items.filter (fun r => !truthyO r.platform)) ∧
    (∀ pin code, pin ≠ some (str "universal") →
      platformSel { platform := pin } = some code → code ≠ str "universal" →
      Search.filterItems items { platform := pin } =
        items.filter (fun r => decide (jsUpper (r.platform.getD []) = code))) := by
  constructor
  · unfold Search.filterItems
    apply List.filter_congr
    intro r _
    show Search.passes { platform := some (str "universal") } r = _
    simp [Search.passes, checkQ, checkPlatform, platformSel, checkGroup,
      checkProdGroup, checkDiameter, checkLength, checkGingiva, checkAngulation,
      Search.checkConnection, checkAbformung, checkColor, checkRotation,
      checkVariant, effConn, orTruthy, truthyO, lower, norm, jsTrim, jsLower,
      parseRotation]
  · intro pin code hne hsel hcu
    unfold Search.filterItems
    apply List.filter_congr
    intro r _
    show Search.passes { platform := pin } r = _
    simp [Search.passes, checkQ, checkPlatform, hsel, hcu, checkGroup,
      checkProdGroup, checkDiameter, checkLength, checkGingiva, checkAngulation,
      Search.checkConnection, checkAbformung, checkColor, checkRotation,
      checkVariant, effConn, orTruthy, truthyO, lower, norm, jsTrim, jsLower,
      parseRotation]

/-- C9 witness: `platform=p06` (canonicalised to `P06`) keeps the record
whose stored platform uppercases to `P06`. -/
theorem c9_platform_filter_witness :
    Search.filterItems [rC9w] { platform := some (str "p06") } =
      [rC9w].filter (fun r => decide (jsUpper (r.platform.getD []) = str "P06")) :=
  (c9_platform_filter [rC9w]).2 (some (str "p06")) (str "P06")
    (by decide) (by decide) (by decide)

/-! ## C10 - sign-stripping numeric normalisation -/

/-- C10: `toNum` strips every character that is not a digit or a dot
(including a minus sign), so it returns null or a non-negative number,
prepending a minus sign never changes its value, and the search filter
accepts `diameter_mm=-4.1` against a stored diameter of 4.1. -/
theorem c10_toNum_sign_blind :
    (∀ s q, toNum (some s) = some q → 0 ≤ q) ∧
    (∀ s, toNum (some ('-' :: s)) = toNum (some s)) ∧
    Search.searchItems [rC10] { diameter_mm := some (str "-4.1") } = [rC10] := by
  refine ⟨?_, toNum_minus, by decide⟩
  intro s q h
  exact parseFloatCore_nonneg _ q h

/-- C10 witness: instantiating the universal parts at "4.1". -/
theorem c10_toNum_sign_blind_witness :
    (0 : ℚ) ≤ 41/10 ∧ toNum (some ('-' :: str "4.1")) = toNum (some (str "4.1")) :=
  ⟨c10_toNum_sign_blind.1 (str "4.1") (41/10) (by decide),
   c10_toNum_sign_blind.2.1 (str "4.1")⟩

/-! ## C6 - facet list cap and ordering -/

/-- C6 counterexample: the `platform_scope` facet is the fixed two-entry
list `[platform, universal]` regardless of counts: with one universal
record its counts are `[0, 1]`, not sorted by descending count. -/
theorem c6_counterexample :
    (str "platform_scope", [0, 1]) ∈ Facets.facetsCounts [rC6] {} ∧
    ¬ ([0, 1] : List ℕ).Pairwise (fun a b => b ≤ a) := by
  constructor
  · decide
  · decide

/-- C6 (amended): every facet value list in the facets response has at most
50 entries; every list except `platform_scope` is sorted by descending
count (`connection_mm` has no explicit cap but admits at most 37 distinct
buckets); `platform_scope` is the fixed two-entry
`[platform, universal]` list, which need not be count-sorted. -/
theorem c6_facet_lists (items : List Rec) (p : Query) (nm : Str) (counts : List ℕ)
    (h : (nm, counts) ∈ Facets.facetsCounts items p) :
    counts.length ≤ 50 ∧
    (nm ≠ str "platform_scope" → counts.Pairwise (fun a b => b ≤ a)) ∧
    (nm = str "platform_scope" → counts.length = 2) := by
  simp only [Facets.facetsCounts, List.mem_cons, List.not_mem_nil, or_false] at h
  rcases h with h | h | h | h | h | h | h | h | h | h | h | h | h <;>
    obtain ⟨rfl, rfl⟩ := Prod.mk.injEq .. |>.mp h
  · exact ⟨(countsProp _ _).1, fun _ => (countsProp _ _).2, fun hh => absurd hh (by decide)⟩
  · refine ⟨by simp, fun hne => absurd rfl hne, fun _ => by simp⟩
  · exact ⟨(countsProp _ _).1, fun _ => (countsProp _ _).2, fun hh => absurd hh (by decide)⟩
  · exact ⟨(countsProp _ _).1, fun _ => (countsProp _ _).2, fun hh => absurd hh (by decide)⟩
  · exact ⟨(countsProp _ _).1, fun _ => (countsProp _ _).2, fun hh => absurd hh (by decide)⟩
  · exact ⟨(countsProp _ _).1, fun _ => (countsProp _ _).2, fun hh => absurd hh (by decide)⟩
  · exact ⟨(countsProp _ _).1, fun _ => (countsProp _ _).2, fun hh => absurd hh (by decide)⟩
  · exact ⟨(countsProp _ _).1, fun _ => (countsProp _ _).2, fun hh => absurd hh (by decide)⟩
  · exact ⟨(connProp _ _).1, fun _ => (connProp _ _).2, fun hh => absurd hh (by decide)⟩
  · exact ⟨(countsProp _ _).1, fun _ => (countsProp _ _).2, fun hh => absurd hh (by decide)⟩
  · exact ⟨(countsProp _ _).1, fun _ => (countsProp _ _).2, fun hh => absurd hh (by decide)⟩
  · exact ⟨(countsProp _ _).1, fun _ => (countsProp _ _).2, fun hh => absurd hh (by decide)⟩
  · exact ⟨(countsProp _ _).1, fun _ => (countsProp _ _).2, fun hh => absurd hh (by decide)⟩

/-- C6 witness: the `group` facet of a one-record catalog satisfies the cap,
sortedness and name disambiguation. -/
theorem c6_facet_lists_witness :
    ([] : List ℕ).length ≤ 50 ∧
    (str "group" ≠ str "platform_scope" → ([] : List ℕ).Pairwise (fun a b => b ≤ a)) ∧
    (str "group" = str "platform_scope" → ([] : List ℕ).length = 2) :=
  c6_facet_lists [rC6] {} (str "group") [] (by decide)

/-! ## C7 - cleaned connection facet -/

/-- C7 counterexample: `part_000`'s connection facet performs no
diameter-facet drop.  With two records deriving 5.0 and one record whose
`diameter_mm` is 5.0, the diameter facet surfaces the bucket 5.0 and the
connection facet still reports `[(5.0, 2)]` instead of dropping it. -/
theorem c7_counterexample :
    Facets.connFacetH [rC7a, rC7b, rC7c] {} = [(5, 2)] ∧
    (5, 1) ∈ countValues (numVal Rec.diameter_mm)
      (Facets.applyFilters [rC7a, rC7b, rC7c] {}) := by
  constructor
  · decide
  · decide

/-- C7 (amended): the `connection_mm` facet is built from the deriver's
output per filtered record; a derived value outside [3.0, 6.5] or within
0.11 of the parsed gingiva hint is discarded before bucketing; surviving
values are bucketed by the 3.75-snap / round-to-0.1 normalisation; when
more than one distinct bucket remains, singleton buckets are dropped; the
buckets are returned in descending-count order.  No bucket is dropped for
matching a surfaced diameter-facet value. -/
theorem c7_conn_facet_pipeline (items : List Rec) (p : Query) :
    Facets.connFacetH items p = specConnFacet items p := by
  unfold Facets.connFacetH specConnFacet
  have hacc : Facets.acceptConn p.gingiva_mm = specAcceptConn p.gingiva_mm := by
    funext r
    unfold Facets.acceptConn specAcceptConn
    cases hd : Facets.deriveConnectionMM r p.gingiva_mm with
    | none => rfl
    | some n =>
      show (if decide (n < 3) || decide (n > 13/2) then none
        else if Facets.gingivaClash p.gingiva_mm n then (none : Option ℚ)
        else some (normConn n)) = _
      rw [Option.some_bind]
      by_cases h1 : (decide (n < 3) || decide (n > 13/2)) = true
      · rw [if_pos h1]
        have : ¬(3 ≤ n ∧ n ≤ 13/2) := by
          rw [Bool.or_eq_true, decide_eq_true_eq, decide_eq_true_eq] at h1
          rcases h1 with h1 | h1
          · exact fun hc => absurd hc.1 (not_le.mpr h1)
          · exact fun hc => absurd hc.2 (not_le.mpr h1)
        rw [if_neg (fun hc => this hc.1)]
      · rw [if_neg h1]
        rw [Bool.or_eq_true, not_or] at h1
        have h3 : 3 ≤ n := not_lt.mp (by simpa using h1.1)
        have h65 : n ≤ 13/2 := not_lt.mp (by simpa using h1.2)
        by_cases h2 : Facets.gingivaClash p.gingiva_mm n = true
        · rw [if_pos h2, if_neg (by simp [h2])]
        · have h2f : Facets.gingivaClash p.gingiva_mm n = false := by simpa using h2
          rw [if_neg h2, if_pos ⟨⟨h3, h65⟩, h2f⟩, normConn_eq_specSnap]
  rw [hacc]
  simp only [tally_spec]

end Implify
